import Mathlib

/-!
Verification of the hyperramp-backend deposit-settlement core.

The definitions below are a shallow embedding of `src/services/onrampService.js`
and of the settlement slice of `src/controllers/stripeController.js`.

Modelling conventions:
* The module-level JS `Map` `pendingTransactions` is modelled as a `List Tx`
  in insertion order; `Map.set` replaces in place when the key exists and
  appends otherwise (`setTx`).
* The module-level mutable cache `lastBalanceCheck` and the map together form
  the process state `St`.
* JS numbers used as money amounts are modelled as `Int`; timestamps
  (`Date.now()`, `Date` values) as `Nat` supplied by the caller.
* Outbound network calls are modelled by their result, passed in as
  `Except String α` parameters: `fetch` is the result that
  `getHyperliquidBalance()` would produce (the Balance Oracle upstream fetch)
  and `transfer` is the result that `depositUsdcToHyperliquid()` would
  produce (`Except.error` = the call throws).  The interpreter records, in
  `Calls`, which outbound invocations actually happened on the executed path.
* JS `try { } catch { }` is modelled with `Except`: `processDepositTry` is the
  body of the outer `try` of `processDeposit` (an `Except.error` value is a
  JavaScript exception escaping the try block, carrying the state and call
  record at the throw point), and `processDeposit` is the catch handler
  wrapped around it, exactly as in the source.
* Fresh identifiers (`tx_${Date.now()}_${random}`) are supplied by the caller
  as the `fid` argument.
* Response-formatting fields that are pure floating-point rendering
  (`formattedBalance = balance.toFixed(2)`) are omitted from the returned
  records; no claim mentions them.
-/

namespace Hyperramp

/-- Transaction lifecycle status, from the `status` union type
`'pending' | 'processing' | 'completed' | 'failed'`. -/
inductive Status where
  | pending
  | processing
  | completed
  | failed
deriving DecidableEq, Repr

/-- A pending transaction record (the `PendingTransaction` interface):
one deposit intent, keyed by `id` in the JS map, carrying the Stripe
session id used for idempotency lookups. -/
structure Tx where
  id : String
  walletAddress : String
  amount : Int
  status : Status
  createdAt : Nat
  updatedAt : Nat
  stripeSessionId : String
  txHash : Option String := none
  error : Option String := none
deriving DecidableEq, Repr

/-- The `lastBalanceCheck` module variable: cached balance plus fetch
timestamp.  The `decimals` field is a constant 6 in the source and is
never read, so it is omitted. -/
structure Cache where
  timestamp : Nat
  balance : Int
deriving DecidableEq, Repr

/-- Whole process-wide mutable state of the onramp service module:
the `pendingTransactions` map (as a list in insertion order) and the
balance cache. -/
structure St where
  ledger : List Tx
  cache : Cache
deriving DecidableEq, Repr

/-- JS `Map.set` keyed by `Tx.id`: replace the first entry with the same id
in place, else append. -/
def setTx : List Tx → Tx → List Tx
  | [], t => [t]
  | x :: xs, t => if x.id = t.id then t :: xs else x :: setTx xs t

/-- JS `Map.get` keyed by `Tx.id` (first entry with the id). -/
def getById : List Tx → String → Option Tx
  | [], _ => none
  | x :: xs, i => if x.id = i then some x else getById xs i

/-- Embeds `getPendingTransactionBySessionId`: scan the map values in
insertion order and return the first transaction whose `stripeSessionId`
matches. -/
def getPendingTransactionBySessionId : List Tx → String → Option Tx
  | [], _ => none
  | x :: xs, sid =>
    if x.stripeSessionId = sid then some x else getPendingTransactionBySessionId xs sid

/-- Embeds `calculatePendingAmount`: total `amount` over transactions whose
status is `pending` or `processing`. -/
def calculatePendingAmount : List Tx → Int
  | [] => 0
  | x :: xs =>
    (if x.status = Status.pending ∨ x.status = Status.processing then x.amount else 0)
      + calculatePendingAmount xs

/-- Number of transactions in the ledger carrying a given Stripe session id
(used to state the at-most-one-intent-per-session properties). -/
def countSession : List Tx → String → Nat
  | [], _ => 0
  | x :: xs, sid => (if x.stripeSessionId = sid then 1 else 0) + countSession xs sid

/-- The fresh record built by `createPendingTransaction` (status starts at
`'pending'`, `createdAt = updatedAt = now`); the generated id is the
caller-supplied `fid`. -/
def mkPendingTransaction (fid stripeSessionId walletAddress : String)
    (amount : Int) (now : Nat) : Tx :=
  { id := fid, walletAddress := walletAddress, amount := amount,
    status := Status.pending, createdAt := now, updatedAt := now,
    stripeSessionId := stripeSessionId }

/-- Embeds `createPendingTransaction`: build the record and `Map.set` it,
returning the record and the new map.  Note the source inserts
unconditionally — there is no duplicate-session check here. -/
def createPendingTransaction (l : List Tx) (fid stripeSessionId walletAddress : String)
    (amount : Int) (now : Nat) : Tx × List Tx :=
  let t := mkPendingTransaction fid stripeSessionId walletAddress amount now
  (t, setTx l t)

/-- The update objects passed to `updatePendingTransaction` in the source
only ever carry some of `status`, `txHash`, `error`; a `none` field means
the key is absent from the update object. -/
structure TxUpdate where
  status : Option Status := none
  txHash : Option String := none
  error : Option String := none
deriving DecidableEq, Repr

/-- Object-spread merge `{ ...transaction, ...updates, updatedAt: new Date() }`. -/
def applyUpdate (tx : Tx) (u : TxUpdate) (now : Nat) : Tx :=
  { tx with
    status := match u.status with | some s => s | none => tx.status
    txHash := match u.txHash with | some h => some h | none => tx.txHash
    error := match u.error with | some e => some e | none => tx.error
    updatedAt := now }

/-- Embeds `updatePendingTransaction`: look the transaction up by id and
`Map.set` the merged record back; a missing id is a no-op (the source
returns `undefined` and writes nothing). -/
def updatePendingTransaction (l : List Tx) (i : String) (u : TxUpdate) (now : Nat) : List Tx :=
  match getById l i with
  | none => l
  | some tx => setTx l (applyUpdate tx u now)

/-- Balance information returned by `getWalletBalance` (sans the
float-formatting field `formattedBalance`). -/
structure BalanceInfo where
  balance : Int
  availableForOnramp : Int
  pendingAmount : Int
deriving DecidableEq, Repr

/-- Embeds `getWalletBalance`.  `fetch` is the behaviour of the upstream
`getHyperliquidBalance()` call.  Returns the JS result (`Except.error` =
the function rethrows the fetch error) paired with the number of upstream
fetch attempts actually made (0 on a cache hit, 1 otherwise).  On the
cached path nothing is written; on a fresh fetch the cache is updated
before pending exposure is computed. -/
def getWalletBalance (now : Nat) (fetch : Except String Int) (st : St) :
    Except String (BalanceInfo × St) × Nat :=
  if now - st.cache.timestamp < 30 * 1000 ∧ st.cache.balance > 0 then
    let pendingAmount := calculatePendingAmount st.ledger
    (Except.ok ({ balance := st.cache.balance,
                  availableForOnramp := max 0 (st.cache.balance - pendingAmount),
                  pendingAmount := pendingAmount }, st), 0)
  else
    match fetch with
    | Except.error e => (Except.error e, 1)
    | Except.ok b =>
      let st1 : St := { st with cache := { timestamp := now, balance := b } }
      let pendingAmount := calculatePendingAmount st.ledger
      (Except.ok ({ balance := b,
                    availableForOnramp := max 0 (b - pendingAmount),
                    pendingAmount := pendingAmount }, st1), 1)

/-- Result object of `processDeposit`. -/
structure DepositOutcome where
  success : Bool
  txHash : Option String := none
  error : Option String := none
  pendingTxId : Option String := none
deriving DecidableEq, Repr

/-- Record of the outbound invocations performed on the executed path:
the Transfer Client calls (`depositUsdcToHyperliquid`, with the
`(destination, amount)` arguments passed), the number of Balance Oracle
queries (`getWalletBalance` invocations) and the number of upstream
balance fetch attempts. -/
structure Calls where
  transferCalls : List (String × Int) := []
  oracleQueries : Nat := 0
  upstreamFetches : Nat := 0
deriving DecidableEq, Repr

/-- JS `s || d` on an optional string field: `undefined` and `""` are
falsy. -/
def jsOrString : Option String → String → String
  | none, d => d
  | some s, d => if s = "" then d else s

/-- The insufficient-balance template string of `processDeposit`. -/
def insufficientMsg (amount available : Int) : String :=
  "Insufficient balance for onramp. Required: " ++ toString amount
    ++ " USDC, Available: " ++ toString available ++ " USDC"

/-- Body of the outer `try` block of `processDeposit`.  An `Except.error`
value is a JS exception escaping the try block (only the balance fetch can
produce one: every other throwing call sits inside an inner try/catch),
carrying the message together with the state and call record at the throw
point. -/
def processDepositTry (stripeSessionId destinationAddress : String) (amount : Int)
    (now : Nat) (fid : String) (fetch : Except String Int)
    (transfer : Except String String) (st : St) :
    Except (String × St × Calls) (DepositOutcome × St × Calls) :=
  match getPendingTransactionBySessionId st.ledger stripeSessionId with
  | some existingTx =>
    if existingTx.status = Status.completed then
      Except.ok ({ success := true, txHash := existingTx.txHash,
                   pendingTxId := some existingTx.id }, st, {})
    else if existingTx.status = Status.failed then
      Except.ok ({ success := false,
                   error := some (jsOrString existingTx.error "Transaction failed"),
                   pendingTxId := some existingTx.id }, st, {})
    else
      -- still pending or processing: mark processing and go straight to the
      -- transfer (note: no balance check on this path in the source)
      let l1 := updatePendingTransaction st.ledger existingTx.id
        { status := some Status.processing } now
      match transfer with
      | Except.ok h =>
        let l2 := updatePendingTransaction l1 existingTx.id
          { status := some Status.completed, txHash := some h } now
        Except.ok ({ success := true, txHash := some h,
                     pendingTxId := some existingTx.id },
          { st with ledger := l2 },
          { transferCalls := [(destinationAddress, amount)] })
      | Except.error e =>
        let l2 := updatePendingTransaction l1 existingTx.id
          { status := some Status.failed, error := some e } now
        Except.ok ({ success := false, error := some e,
                     pendingTxId := some existingTx.id },
          { st with ledger := l2 },
          { transferCalls := [(destinationAddress, amount)] })
  | none =>
    match getWalletBalance now fetch st with
    | (Except.error e, f) =>
      Except.error (e, st, { oracleQueries := 1, upstreamFetches := f })
    | (Except.ok (info, st1), f) =>
      if info.availableForOnramp < amount then
        let created := createPendingTransaction st1.ledger fid stripeSessionId
          destinationAddress amount now
        let l2 := updatePendingTransaction created.2 created.1.id
          { status := some Status.failed,
            error := some (insufficientMsg amount info.availableForOnramp) } now
        Except.ok ({ success := false,
                     error := some (insufficientMsg amount info.availableForOnramp),
                     pendingTxId := some created.1.id },
          { st1 with ledger := l2 },
          { oracleQueries := 1, upstreamFetches := f })
      else
        let created := createPendingTransaction st1.ledger fid stripeSessionId
          destinationAddress amount now
        let l2 := updatePendingTransaction created.2 created.1.id
          { status := some Status.processing } now
        match transfer with
        | Except.ok h =>
          let l3 := updatePendingTransaction l2 created.1.id
            { status := some Status.completed, txHash := some h } now
          Except.ok ({ success := true, txHash := some h,
                       pendingTxId := some created.1.id },
            { st1 with ledger := l3 },
            { transferCalls := [(destinationAddress, amount)],
              oracleQueries := 1, upstreamFetches := f })
        | Except.error e =>
          let l3 := updatePendingTransaction l2 created.1.id
            { status := some Status.failed, error := some e } now
          Except.ok ({ success := false, error := some e,
                       pendingTxId := some created.1.id },
            { st1 with ledger := l3 },
            { transferCalls := [(destinationAddress, amount)],
              oracleQueries := 1, upstreamFetches := f })

/-- Embeds `processDeposit`: the try body wrapped in the outer catch, which
converts an escaped error into a `{ success: false, error }` outcome (with
no `pendingTxId`). -/
def processDeposit (stripeSessionId destinationAddress : String) (amount : Int)
    (now : Nat) (fid : String) (fetch : Except String Int)
    (transfer : Except String String) (st : St) : DepositOutcome × St × Calls :=
  match processDepositTry stripeSessionId destinationAddress amount now fid
      fetch transfer st with
  | Except.ok r => r
  | Except.error (e, st1, c) => ({ success := false, error := some e }, st1, c)

/-- Transaction status record returned by the status query interfaces
(`createdAt`/`updatedAt` kept as the numeric timestamps the ISO strings
render). -/
structure TransactionStatus where
  sessionId : String
  status : Status
  walletAddress : String
  amount : Int
  txHash : Option String
  error : Option String
  createdAt : Nat
  updatedAt : Nat
deriving DecidableEq, Repr

/-- Field-by-field projection of a ledger record into a status record, as
written inline in `getTransactionStatus` and `getAllTransactionStatuses`. -/
def toTransactionStatus (tx : Tx) : TransactionStatus :=
  { sessionId := tx.stripeSessionId, status := tx.status,
    walletAddress := tx.walletAddress, amount := tx.amount,
    txHash := tx.txHash, error := tx.error,
    createdAt := tx.createdAt, updatedAt := tx.updatedAt }

/-- Embeds `getTransactionStatus`: look the session up and project, `null`
when absent. -/
def getTransactionStatus (l : List Tx) (sessionId : String) : Option TransactionStatus :=
  match getPendingTransactionBySessionId l sessionId with
  | none => none
  | some tx => some (toTransactionStatus tx)

/-- Embeds `getAllTransactionStatuses`: project every map value. -/
def getAllTransactionStatuses (l : List Tx) : List TransactionStatus :=
  l.map toTransactionStatus

/-- State-transformer view of `getTransactionStatus`, making its effect on
the process state explicit (the source only reads the map). -/
def getTransactionStatusOp (sessionId : String) (st : St) :
    Option TransactionStatus × St :=
  (getTransactionStatus st.ledger sessionId, st)

/-- State-transformer view of `getAllTransactionStatuses`. -/
def getAllTransactionStatusesOp (st : St) : List TransactionStatus × St :=
  (getAllTransactionStatuses st.ledger, st)

/-- Capacity payload of the `getOnrampCapacity` controller:
the balance info plus `maxAmount = min(availableForOnramp, 2500)` and
`minAmount = 5` (the cent constants divided by 100). -/
structure CapacityInfo where
  balance : Int
  availableForOnramp : Int
  pendingAmount : Int
  maxAmount : Int
  minAmount : Int
deriving DecidableEq, Repr

/-- Embeds the `getOnrampCapacity` controller (the `getCapacity` query):
calls `getWalletBalance` and decorates the result; a balance error becomes
a 500 failure response.  Returns the response and the resulting process
state. -/
def getOnrampCapacity (now : Nat) (fetch : Except String Int) (st : St) :
    Except String CapacityInfo × St :=
  match getWalletBalance now fetch st with
  | (Except.error e, _) => (Except.error e, st)
  | (Except.ok (info, st1), _) =>
    (Except.ok { balance := info.balance,
                 availableForOnramp := info.availableForOnramp,
                 pendingAmount := info.pendingAmount,
                 maxAmount := min info.availableForOnramp 2500,
                 minAmount := 5 }, st1)

/-- The fields of a `checkout.session.completed` event object that the
webhook handler reads: session id, `payment_status`, the metadata wallet
address, the parsed metadata `baseAmount`, and the payment-intent id used
for refunds (absent when `session.payment_intent` is null). -/
structure WebhookSession where
  id : String
  paymentStatus : String
  walletAddress : Option String
  baseAmount : Int
  paymentIntent : Option String
deriving DecidableEq, Repr

/-- JS truthiness of the optional metadata string (`undefined` and `""` are
falsy). -/
def jsTruthyStr : Option String → Bool
  | none => false
  | some s => decide (s ≠ "")

/-- Result of one webhook delivery: final process state, the outbound calls
made by settlement, how many refund attempts (`stripe.refunds.create`)
were issued, and the settlement outcome when settlement ran. -/
structure WebhookRun where
  finalState : St
  calls : Calls
  refundAttempts : Nat
  processOutcome : Option DepositOutcome
deriving DecidableEq, Repr

/-- Embeds the `checkout.session.completed` branch of `handleWebhook`
(`stripeController.js`): when the payment is paid and the metadata wallet
address and amount are truthy, run `processDeposit`; on a failure outcome
issue one refund attempt provided the session carries a payment intent
(the refund result itself is caught and ignored, so it is not a
parameter).  JS truthiness of `baseAmount` (a parsed float) is modelled as
`≠ 0`.  The handler acknowledges the event (HTTP 200) in every case. -/
def handleCheckoutCompleted (sess : WebhookSession) (now : Nat) (fid : String)
    (fetch : Except String Int) (transfer : Except String String) (st : St) :
    WebhookRun :=
  if sess.paymentStatus = "paid" then
    if jsTruthyStr sess.walletAddress ∧ sess.baseAmount ≠ 0 then
      let r := processDeposit sess.id (sess.walletAddress.getD "")
        sess.baseAmount now fid fetch transfer st
      if r.1.success then
        { finalState := r.2.1, calls := r.2.2, refundAttempts := 0,
          processOutcome := some r.1 }
      else
        match sess.paymentIntent with
        | some _ =>
          { finalState := r.2.1, calls := r.2.2, refundAttempts := 1,
            processOutcome := some r.1 }
        | none =>
          { finalState := r.2.1, calls := r.2.2, refundAttempts := 0,
            processOutcome := some r.1 }
    else
      { finalState := st, calls := {}, refundAttempts := 0, processOutcome := none }
  else
    { finalState := st, calls := {}, refundAttempts := 0, processOutcome := none }

/-! Ledger lemmas: behaviour of the map primitives under fresh-id inserts
and in-place updates. -/

lemma getById_eq_id {l : List Tx} {i : String} {tx : Tx}
    (h : getById l i = some tx) : tx.id = i := by
  induction l with
  | nil => simp [getById] at h
  | cons x xs ih =>
    by_cases hx : x.id = i
    · simp only [getById, if_pos hx, Option.some.injEq] at h
      subst h; exact hx
    · simp only [getById, if_neg hx] at h
      exact ih h

lemma setTx_of_not_mem {l : List Tx} {t : Tx}
    (h : t.id ∉ l.map Tx.id) : setTx l t = l ++ [t] := by
  induction l with
  | nil => rfl
  | cons x xs ih =>
    simp only [List.map_cons, List.mem_cons, not_or] at h
    have hx : ¬ x.id = t.id := fun hh => h.1 hh.symm
    simp [setTx, hx, ih h.2]

lemma getById_append_self {l : List Tx} {t : Tx}
    (h : t.id ∉ l.map Tx.id) : getById (l ++ [t]) t.id = some t := by
  induction l with
  | nil => simp [getById]
  | cons x xs ih =>
    simp only [List.map_cons, List.mem_cons, not_or] at h
    have hx : ¬ x.id = t.id := fun hh => h.1 hh.symm
    simp [getById, hx, ih h.2]

lemma setTx_append_self {l : List Tx} {t u : Tx}
    (h : t.id ∉ l.map Tx.id) (hu : u.id = t.id) :
    setTx (l ++ [t]) u = l ++ [u] := by
  induction l with
  | nil => simp [setTx, hu]
  | cons x xs ih =>
    simp only [List.map_cons, List.mem_cons, not_or] at h
    have hx : ¬ x.id = u.id := fun hh => h.1 (hu ▸ hh).symm
    simp [setTx, hx, ih h.2]

lemma applyUpdate_id (t : Tx) (u : TxUpdate) (now : Nat) :
    (applyUpdate t u now).id = t.id := rfl

lemma applyUpdate_amount (t : Tx) (u : TxUpdate) (now : Nat) :
    (applyUpdate t u now).amount = t.amount := rfl

lemma applyUpdate_session (t : Tx) (u : TxUpdate) (now : Nat) :
    (applyUpdate t u now).stripeSessionId = t.stripeSessionId := rfl

lemma update_append_fresh {l : List Tx} {t : Tx} (u : TxUpdate) (now : Nat)
    (h : t.id ∉ l.map Tx.id) :
    updatePendingTransaction (l ++ [t]) t.id u now = l ++ [applyUpdate t u now] := by
  unfold updatePendingTransaction
  rw [getById_append_self h]
  exact setTx_append_self h (applyUpdate_id t u now)

lemma findSession_append {l : List Tx} {sid : String} (t : Tx)
    (h : getPendingTransactionBySessionId l sid = none) :
    getPendingTransactionBySessionId (l ++ [t]) sid
      = if t.stripeSessionId = sid then some t else none := by
  induction l with
  | nil => simp [getPendingTransactionBySessionId]
  | cons x xs ih =>
    by_cases hx : x.stripeSessionId = sid
    · simp [getPendingTransactionBySessionId, hx] at h
    · simp only [getPendingTransactionBySessionId, if_neg hx] at h
      simp [getPendingTransactionBySessionId, hx, ih h]

lemma countSession_of_findSession_none {l : List Tx} {sid : String}
    (h : getPendingTransactionBySessionId l sid = none) :
    countSession l sid = 0 := by
  induction l with
  | nil => rfl
  | cons x xs ih =>
    by_cases hx : x.stripeSessionId = sid
    · simp [getPendingTransactionBySessionId, hx] at h
    · simp only [getPendingTransactionBySessionId, if_neg hx] at h
      simp [countSession, hx, ih h]

lemma countSession_append (l : List Tx) (t : Tx) (sid : String) :
    countSession (l ++ [t]) sid
      = countSession l sid + (if t.stripeSessionId = sid then 1 else 0) := by
  induction l with
  | nil => simp [countSession]
  | cons x xs ih => simp [countSession, ih]; omega

lemma countSession_setTx_first {l : List Tx} {i : String} {tx u : Tx}
    (h : getById l i = some tx) (hid : u.id = i)
    (hsid : u.stripeSessionId = tx.stripeSessionId) (sid : String) :
    countSession (setTx l u) sid = countSession l sid := by
  induction l with
  | nil => simp [getById] at h
  | cons x xs ih =>
    by_cases hx : x.id = i
    · simp only [getById, if_pos hx, Option.some.injEq] at h
      subst h
      have : x.id = u.id := by rw [hid, hx]
      simp [setTx, this.symm, countSession, hsid]
    · simp only [getById, if_neg hx] at h
      have hxu : ¬ x.id = u.id := fun hh => hx (hid ▸ hh)
      simp [setTx, hxu, countSession, ih h]

lemma countSession_update (l : List Tx) (i : String) (u : TxUpdate)
    (now : Nat) (sid : String) :
    countSession (updatePendingTransaction l i u now) sid = countSession l sid := by
  unfold updatePendingTransaction
  cases hg : getById l i with
  | none => rfl
  | some tx =>
    exact countSession_setTx_first hg
      ((applyUpdate_id tx u now).trans (getById_eq_id hg))
      (applyUpdate_session tx u now) sid

lemma getWalletBalance_ledger {now : Nat} {fetch : Except String Int} {st : St}
    {info : BalanceInfo} {st1 : St} {f : Nat}
    (h : getWalletBalance now fetch st = (Except.ok (info, st1), f)) :
    st1.ledger = st.ledger := by
  by_cases hc : now - st.cache.timestamp < 30 * 1000 ∧ st.cache.balance > 0
  · simp only [getWalletBalance, if_pos hc, Prod.mk.injEq, Except.ok.injEq] at h
    rw [← h.1.2]
  · cases fetch with
    | error e => simp [getWalletBalance, if_neg hc] at h
    | ok b =>
      simp only [getWalletBalance, if_neg hc, Prod.mk.injEq, Except.ok.injEq] at h
      rw [← h.1.2]

lemma insufficientMsg_ne_empty (amount available : Int) :
    insufficientMsg amount available ≠ "" := by
  intro h
  have hl := congrArg String.length h
  simp only [insufficientMsg, String.length_append] at hl
  have h0 : ("Insufficient balance for onramp. Required: ").length = 43 := by decide
  have h1 : ("".length) = 0 := by decide
  omega

lemma jsOrString_of_ne {s : String} (h : s ≠ "") (d : String) :
    jsOrString (some s) d = s := by
  simp [jsOrString, h]

/-! Symbolic execution of `processDeposit` on a session with no existing
intent, split by headroom and transfer outcome.  These three lemmas compute
the exact result of the fresh-session paths and are shared by the claim
theorems below. -/

/-- The ledger record left behind by the insufficient-balance path. -/
def insufficientTx (fid sid dest : String) (amount available : Int) (now : Nat) : Tx :=
  { id := fid, walletAddress := dest, amount := amount, status := Status.failed,
    createdAt := now, updatedAt := now, stripeSessionId := sid,
    txHash := none, error := some (insufficientMsg amount available) }

/-- The ledger record left behind by a successful fresh-session transfer. -/
def completedTx (fid sid dest : String) (amount : Int) (now : Nat) (h : String) : Tx :=
  { id := fid, walletAddress := dest, amount := amount, status := Status.completed,
    createdAt := now, updatedAt := now, stripeSessionId := sid,
    txHash := some h, error := none }

/-- The ledger record left behind by a failed fresh-session transfer. -/
def failedTx (fid sid dest : String) (amount : Int) (now : Nat) (e : String) : Tx :=
  { id := fid, walletAddress := dest, amount := amount, status := Status.failed,
    createdAt := now, updatedAt := now, stripeSessionId := sid,
    txHash := none, error := some e }

lemma run_insufficient {sid dest : String} {amount : Int} {now : Nat} {fid : String}
    {fetch : Except String Int} (transfer : Except String String) {st : St}
    {info : BalanceInfo} {st1 : St} {f : Nat}
    (hfind : getPendingTransactionBySessionId st.ledger sid = none)
    (hfresh : fid ∉ st.ledger.map Tx.id)
    (hbal : getWalletBalance now fetch st = (Except.ok (info, st1), f))
    (hlt : info.availableForOnramp < amount) :
    processDeposit sid dest amount now fid fetch transfer st
      = ({ success := false,
           error := some (insufficientMsg amount info.availableForOnramp),
           pendingTxId := some fid },
         { st1 with ledger :=
            st.ledger ++ [insufficientTx fid sid dest amount info.availableForOnramp now] },
         { oracleQueries := 1, upstreamFetches := f }) := by
  have hl : st1.ledger = st.ledger := getWalletBalance_ledger hbal
  have hfresh1 : (mkPendingTransaction fid sid dest amount now).id ∉ st1.ledger.map Tx.id := by
    rw [hl]; exact hfresh
  simp only [processDeposit, processDepositTry, hfind, hbal, if_pos hlt,
    createPendingTransaction, setTx_of_not_mem hfresh1]
  rw [show (mkPendingTransaction fid sid dest amount now).id
        = (mkPendingTransaction fid sid dest amount now).id from rfl,
    update_append_fresh _ now hfresh1, hl]
  rfl

lemma run_transfer_ok {sid dest : String} {amount : Int} {now : Nat} {fid : String}
    {fetch : Except String Int} {h : String} {st : St}
    {info : BalanceInfo} {st1 : St} {f : Nat}
    (hfind : getPendingTransactionBySessionId st.ledger sid = none)
    (hfresh : fid ∉ st.ledger.map Tx.id)
    (hbal : getWalletBalance now fetch st = (Except.ok (info, st1), f))
    (hge : ¬ info.availableForOnramp < amount) :
    processDeposit sid dest amount now fid fetch (Except.ok h) st
      = ({ success := true, txHash := some h, pendingTxId := some fid },
         { st1 with ledger := st.ledger ++ [completedTx fid sid dest amount now h] },
         { transferCalls := [(dest, amount)], oracleQueries := 1, upstreamFetches := f }) := by
  have hl : st1.ledger = st.ledger := getWalletBalance_ledger hbal
  have hfresh1 : (mkPendingTransaction fid sid dest amount now).id ∉ st1.ledger.map Tx.id := by
    rw [hl]; exact hfresh
  have hfresh2 : (applyUpdate (mkPendingTransaction fid sid dest amount now)
      { status := some Status.processing } now).id ∉ st1.ledger.map Tx.id := hfresh1
  simp only [processDeposit, processDepositTry, hfind, hbal, if_neg hge,
    createPendingTransaction, setTx_of_not_mem hfresh1,
    update_append_fresh _ now hfresh1]
  rw [show (mkPendingTransaction fid sid dest amount now).id
        = (applyUpdate (mkPendingTransaction fid sid dest amount now)
            { status := some Status.processing } now).id from rfl,
    update_append_fresh _ now hfresh2, hl]
  rfl

lemma run_transfer_error {sid dest : String} {amount : Int} {now : Nat} {fid : String}
    {fetch : Except String Int} {e : String} {st : St}
    {info : BalanceInfo} {st1 : St} {f : Nat}
    (hfind : getPendingTransactionBySessionId st.ledger sid = none)
    (hfresh : fid ∉ st.ledger.map Tx.id)
    (hbal : getWalletBalance now fetch st = (Except.ok (info, st1), f))
    (hge : ¬ info.availableForOnramp < amount) :
    processDeposit sid dest amount now fid fetch (Except.error e) st
      = ({ success := false, error := some e, pendingTxId := some fid },
         { st1 with ledger := st.ledger ++ [failedTx fid sid dest amount now e] },
         { transferCalls := [(dest, amount)], oracleQueries := 1, upstreamFetches := f }) := by
  have hl : st1.ledger = st.ledger := getWalletBalance_ledger hbal
  have hfresh1 : (mkPendingTransaction fid sid dest amount now).id ∉ st1.ledger.map Tx.id := by
    rw [hl]; exact hfresh
  have hfresh2 : (applyUpdate (mkPendingTransaction fid sid dest amount now)
      { status := some Status.processing } now).id ∉ st1.ledger.map Tx.id := hfresh1
  simp only [processDeposit, processDepositTry, hfind, hbal, if_neg hge,
    createPendingTransaction, setTx_of_not_mem hfresh1,
    update_append_fresh _ now hfresh1]
  rw [show (mkPendingTransaction fid sid dest amount now).id
        = (applyUpdate (mkPendingTransaction fid sid dest amount now)
            { status := some Status.processing } now).id from rfl,
    update_append_fresh _ now hfresh2, hl]
  rfl

lemma run_existing_completed {sid dest : String} {amount : Int} {now : Nat}
    {fid : String} {fetch : Except String Int} (transfer : Except String String)
    {st : St} {tx : Tx}
    (hfind : getPendingTransactionBySessionId st.ledger sid = some tx)
    (hc : tx.status = Status.completed) :
    processDeposit sid dest amount now fid fetch transfer st
      = ({ success := true, txHash := tx.txHash, pendingTxId := some tx.id }, st, {}) := by
  simp only [processDeposit, processDepositTry, hfind, if_pos hc]

lemma run_existing_failed {sid dest : String} {amount : Int} {now : Nat}
    {fid : String} {fetch : Except String Int} (transfer : Except String String)
    {st : St} {tx : Tx}
    (hfind : getPendingTransactionBySessionId st.ledger sid = some tx)
    (hf : tx.status = Status.failed) :
    processDeposit sid dest amount now fid fetch transfer st
      = ({ success := false, error := some (jsOrString tx.error "Transaction failed"),
           pendingTxId := some tx.id }, st, {}) := by
  have hc : ¬ tx.status = Status.completed := by rw [hf]; intro hh; cases hh
  simp only [processDeposit, processDepositTry, hfind, if_neg hc, if_pos hf]

/-! Shape lemmas for `processDepositTry`, used for the propagation claim. -/

lemma processDepositTry_ok_error_some {sid dest : String} {amount : Int} {now : Nat}
    {fid : String} {fetch : Except String Int} {transfer : Except String String}
    {st : St} {r : DepositOutcome × St × Calls}
    (h : processDepositTry sid dest amount now fid fetch transfer st = Except.ok r)
    (hs : r.1.success = false) : (r.1.error).isSome = true := by
  unfold processDepositTry at h
  repeat' split at h
  all_goals first
    | (injection h; done)
    | (injection h with h; subst h; simp_all)

lemma processDepositTry_error_state {sid dest : String} {amount : Int} {now : Nat}
    {fid : String} {fetch : Except String Int} {transfer : Except String String}
    {st : St} {e : String} {st1 : St} {c : Calls}
    (h : processDepositTry sid dest amount now fid fetch transfer st
      = Except.error (e, st1, c)) : st1 = st := by
  unfold processDepositTry at h
  repeat' split at h
  all_goals simp_all

lemma processDepositTry_ok_calls {sid dest : String} {amount : Int} {now : Nat}
    {fid : String} {fetch : Except String Int} {transfer : Except String String}
    {st : St} {r : DepositOutcome × St × Calls}
    (h : processDepositTry sid dest amount now fid fetch transfer st = Except.ok r) :
    r.2.2.transferCalls = [] ∨ r.2.2.transferCalls = [(dest, amount)] := by
  unfold processDepositTry at h
  repeat' split at h
  all_goals first
    | (injection h; done)
    | (injection h with h; subst h; simp_all)

lemma processDepositTry_error_calls {sid dest : String} {amount : Int} {now : Nat}
    {fid : String} {fetch : Except String Int} {transfer : Except String String}
    {st : St} {e : String} {st1 : St} {c : Calls}
    (h : processDepositTry sid dest amount now fid fetch transfer st
      = Except.error (e, st1, c)) : c.transferCalls = [] := by
  unfold processDepositTry at h
  repeat' split at h
  all_goals try simp_all
  all_goals (obtain ⟨h1, h2, h3⟩ := h; rw [← h3])

/-- C9: for every ledger state, a successful `getWalletBalance` call returns
`pendingAmount` equal to the sum of `amount` over intents whose status is
pending or processing, and `availableForOnramp` equal to
`max 0 (balance - pendingAmount)`. -/
theorem exposure_accounting (now : Nat) (fetch : Except String Int) (st : St)
    (info : BalanceInfo) (st1 : St) (f : Nat)
    (h : getWalletBalance now fetch st = (Except.ok (info, st1), f)) :
    info.pendingAmount = calculatePendingAmount st.ledger ∧
    info.availableForOnramp = max 0 (info.balance - info.pendingAmount) := by
  by_cases hc : now - st.cache.timestamp < 30 * 1000 ∧ st.cache.balance > 0
  · simp only [getWalletBalance, if_pos hc, Prod.mk.injEq, Except.ok.injEq] at h
    rw [← h.1.1]
    exact ⟨rfl, rfl⟩
  · cases fetch with
    | error e => simp [getWalletBalance, if_neg hc] at h
    | ok b =>
      simp only [getWalletBalance, if_neg hc, Prod.mk.injEq, Except.ok.injEq] at h
      rw [← h.1.1]
      exact ⟨rfl, rfl⟩

/-- Witness for C9: a concrete successful balance query (balance 100, empty
ledger) satisfies the exposure accounting equations. -/
theorem exposure_accounting_witness :
    ({ balance := 100, availableForOnramp := 100, pendingAmount := 0 } : BalanceInfo).pendingAmount
        = calculatePendingAmount (St.ledger { ledger := [], cache := { timestamp := 0, balance := 0 } }) ∧
    ({ balance := 100, availableForOnramp := 100, pendingAmount := 0 } : BalanceInfo).availableForOnramp
        = max 0 (({ balance := 100, availableForOnramp := 100, pendingAmount := 0 } : BalanceInfo).balance
            - ({ balance := 100, availableForOnramp := 100, pendingAmount := 0 } : BalanceInfo).pendingAmount) :=
  exposure_accounting 0 (Except.ok 100)
    { ledger := [], cache := { timestamp := 0, balance := 0 } }
    { balance := 100, availableForOnramp := 100, pendingAmount := 0 }
    { ledger := [], cache := { timestamp := 0, balance := 100 } } 1 rfl

/-- C5: for every settle call in which the Balance Oracle fetch is actually
performed (no existing intent short-circuits the call and the cache cannot
serve it) and the fetch throws, `processDeposit` returns a failure outcome
carrying the fetch error and the Transfer Client is never invoked. -/
theorem fail_closed_on_unknown_balance (sid dest : String) (amount : Int)
    (now : Nat) (fid e : String) (transfer : Except String String) (st : St)
    (hfind : getPendingTransactionBySessionId st.ledger sid = none)
    (hcache : ¬ (now - st.cache.timestamp < 30 * 1000 ∧ st.cache.balance > 0)) :
    (processDeposit sid dest amount now fid (Except.error e) transfer st).1.success = false ∧
    (processDeposit sid dest amount now fid (Except.error e) transfer st).1.error = some e ∧
    (processDeposit sid dest amount now fid (Except.error e) transfer st).2.2.transferCalls = [] := by
  simp [processDeposit, processDepositTry, hfind, getWalletBalance, hcache]

/-- Witness for C5: with an empty ledger, a cold cache and a throwing
balance fetch, settlement fails closed without a transfer. -/
theorem fail_closed_witness :
    (processDeposit "cs_1" "0xabc" 30 0 "tx_1" (Except.error "boom") (Except.ok "h")
        { ledger := [], cache := { timestamp := 0, balance := 0 } }).1.success = false ∧
    (processDeposit "cs_1" "0xabc" 30 0 "tx_1" (Except.error "boom") (Except.ok "h")
        { ledger := [], cache := { timestamp := 0, balance := 0 } }).1.error = some "boom" ∧
    (processDeposit "cs_1" "0xabc" 30 0 "tx_1" (Except.error "boom") (Except.ok "h")
        { ledger := [], cache := { timestamp := 0, balance := 0 } }).2.2.transferCalls = [] :=
  fail_closed_on_unknown_balance "cs_1" "0xabc" 30 0 "tx_1" "boom" (Except.ok "h")
    { ledger := [], cache := { timestamp := 0, balance := 0 } } rfl (by decide)

/-- C10, counterexample: `getCapacity` is not side-effect free.  On a cache
miss the underlying `getWalletBalance` writes a fresh `lastBalanceCheck`
snapshot, so invoking the capacity query changes process-wide state. -/
theorem query_purity_cex :
    (getOnrampCapacity 100000 (Except.ok 50)
        { ledger := [], cache := { timestamp := 0, balance := 0 } }).2
      ≠ { ledger := [], cache := { timestamp := 0, balance := 0 } } := by decide

/-- C10, amended: `getTransactionStatus` and `getAllTransactionStatuses`
leave the process state untouched, and `getCapacity` never modifies any
intent or the ledger — but it may refresh the process-wide balance cache. -/
theorem query_reads_amended (sessionId : String) (now : Nat)
    (fetch : Except String Int) (st : St) :
    (getTransactionStatusOp sessionId st).2 = st ∧
    (getAllTransactionStatusesOp st).2 = st ∧
    (getOnrampCapacity now fetch st).2.ledger = st.ledger := by
  refine ⟨rfl, rfl, ?_⟩
  rcases hg : getWalletBalance now fetch st with ⟨r, f⟩
  cases r with
  | error e => simp [getOnrampCapacity, hg]
  | ok p =>
    rcases p with ⟨info, st1⟩
    simp only [getOnrampCapacity, hg]
    exact getWalletBalance_ledger hg

/-- C8, counterexample: a balance-fetch failure is caught and converted into
a failure outcome, but it produces no Ledger status transition at all: the
process state is returned exactly unchanged (in particular the ledger is
still empty, so no intent exists to carry a Failed status). -/
theorem no_unhandled_cex :
    (processDeposit "cs_1" "0xabc" 30 0 "tx_1" (Except.error "boom") (Except.ok "h")
        { ledger := [], cache := { timestamp := 0, balance := 0 } }).1.success = false ∧
    (processDeposit "cs_1" "0xabc" 30 0 "tx_1" (Except.error "boom") (Except.ok "h")
        { ledger := [], cache := { timestamp := 0, balance := 0 } }).2.1
      = { ledger := [], cache := { timestamp := 0, balance := 0 } } := by decide

/-- C8, amended: `processDeposit` never lets an exception propagate — every
failure is converted into a returned outcome with `success = false` and an
error reason; an exception escaping the try body (only the balance fetch
can throw one) is converted by the outer catch into such an outcome while
leaving the ledger unchanged, rather than recording a status transition. -/
theorem no_unhandled_propagation (sid dest : String) (amount : Int) (now : Nat)
    (fid : String) (fetch : Except String Int) (transfer : Except String String)
    (st : St) :
    ((processDeposit sid dest amount now fid fetch transfer st).1.success = false →
      ((processDeposit sid dest amount now fid fetch transfer st).1.error).isSome = true) ∧
    (∀ e st1 c, processDepositTry sid dest amount now fid fetch transfer st
        = Except.error (e, st1, c) →
      processDeposit sid dest amount now fid fetch transfer st
          = ({ success := false, error := some e }, st1, c) ∧ st1.ledger = st.ledger) := by
  constructor
  · intro hs
    unfold processDeposit at hs ⊢
    cases htry : processDepositTry sid dest amount now fid fetch transfer st with
    | ok r =>
      rw [htry] at hs
      exact processDepositTry_ok_error_some htry hs
    | error p =>
      rcases p with ⟨e, st1, c⟩
      rfl
  · intro e st1 c htry
    refine ⟨?_, by rw [processDepositTry_error_state htry]⟩
    unfold processDeposit
    rw [htry]

/-- Witness for C8: at a concrete input whose balance fetch throws, the
outcome is a caught failure carrying an error reason. -/
theorem no_unhandled_witness :
    ((processDeposit "cs_2" "0xd" 30 0 "t1" (Except.error "boom") (Except.ok "h")
        { ledger := [], cache := { timestamp := 0, balance := 0 } }).1.error).isSome = true :=
  (no_unhandled_propagation "cs_2" "0xd" 30 0 "t1" (Except.error "boom") (Except.ok "h")
    { ledger := [], cache := { timestamp := 0, balance := 0 } }).1 (by decide)

/-- C7, counterexample: with an existing Pending intent for session
`sess_1` whose stored amount is 50, a settle call carrying amount 80
invokes the Transfer Client with 80 — the event's amount — while the
intent's stored amount (unchanged by the transition into Processing)
remains 50. -/
theorem transfer_amount_cex :
    (processDeposit "sess_1" "0xabc" 80 1 "tx_2" (Except.ok 1000) (Except.ok "h")
        { ledger := [{ id := "tx_1", walletAddress := "0xabc", amount := 50,
                       status := Status.pending, createdAt := 0, updatedAt := 0,
                       stripeSessionId := "sess_1" }],
          cache := { timestamp := 0, balance := 0 } }).2.2.transferCalls
      = [("0xabc", 80)] ∧
    ((getById (processDeposit "sess_1" "0xabc" 80 1 "tx_2" (Except.ok 1000) (Except.ok "h")
        { ledger := [{ id := "tx_1", walletAddress := "0xabc", amount := 50,
                       status := Status.pending, createdAt := 0, updatedAt := 0,
                       stripeSessionId := "sess_1" }],
          cache := { timestamp := 0, balance := 0 } }).2.1.ledger "tx_1").map Tx.amount)
      = some 50 ∧
    (80 : Int) ≠ 50 := by decide

/-- C7, amended: every Transfer Client invocation made by `processDeposit`
passes exactly the settle call's own `(destination, amount)` arguments;
when an existing Pending/Processing intent is settled the stored intent
amount is not consulted, so the transferred amount equals the intent's
stored amount only when the redelivered event carries the original data. -/
theorem transfer_uses_call_arguments (sid dest : String) (amount : Int) (now : Nat)
    (fid : String) (fetch : Except String Int) (transfer : Except String String)
    (st : St) :
    ∀ call ∈ (processDeposit sid dest amount now fid fetch transfer st).2.2.transferCalls,
      call = (dest, amount) := by
  intro call hc
  unfold processDeposit at hc
  cases htry : processDepositTry sid dest amount now fid fetch transfer st with
  | ok r =>
    rw [htry] at hc
    have hc2 : call ∈ r.2.2.transferCalls := hc
    rcases processDepositTry_ok_calls htry with hnil | hone
    · rw [hnil] at hc2
      exact absurd hc2 (List.not_mem_nil call)
    · rw [hone] at hc2
      simpa using hc2
  | error p =>
    rcases p with ⟨e, st1, c⟩
    rw [htry] at hc
    have hc2 : call ∈ c.transferCalls := hc
    rw [processDepositTry_error_calls htry] at hc2
    exact absurd hc2 (List.not_mem_nil call)

/-- Witness for C7: a concrete fresh-session settlement makes a transfer
call, and that call carries the settle call's own arguments. -/
theorem transfer_arguments_witness :
    (("0xd", (30 : Int)) ∈ (processDeposit "cs_3" "0xd" 30 0 "t1" (Except.ok 100)
        (Except.ok "h") { ledger := [], cache := { timestamp := 0, balance := 0 } }).2.2.transferCalls) ∧
    (("0xd", (30 : Int)) = ("0xd", (30 : Int))) :=
  ⟨by decide,
    transfer_uses_call_arguments "cs_3" "0xd" 30 0 "t1" (Except.ok 100) (Except.ok "h")
      { ledger := [], cache := { timestamp := 0, balance := 0 } }
      ("0xd", (30 : Int)) (by decide)⟩

/-- C6, counterexample: `createPendingTransaction` is not duplicate-safe —
called while an intent for `sess_1` already exists, it inserts a second
record for the same session id instead of failing or reusing the first. -/
theorem ledger_create_cex :
    countSession (createPendingTransaction
        [{ id := "tx_1", walletAddress := "0xw", amount := 20, status := Status.pending,
           createdAt := 0, updatedAt := 0, stripeSessionId := "sess_1" }]
        "tx_2" "sess_1" "0xw" 20 5).2 "sess_1" = 2 := by decide

/-- C6, amended: duplicate avoidance lives in the orchestrator, not in the
create primitive: `createPendingTransaction` inserts unconditionally, but
`processDeposit` looks the session up first and only creates when absent,
so (for a fresh generated id) a settle call never leaves more than one
intent for its session in the ledger. -/
theorem ledger_at_most_one_intent (sid dest : String) (amount : Int) (now : Nat)
    (fid : String) (fetch : Except String Int) (transfer : Except String String)
    (st : St) (hfresh : fid ∉ st.ledger.map Tx.id) :
    countSession (processDeposit sid dest amount now fid fetch transfer st).2.1.ledger sid
      ≤ max 1 (countSession st.ledger sid) := by
  cases hfind : getPendingTransactionBySessionId st.ledger sid with
  | some tx =>
    by_cases hc : tx.status = Status.completed
    · rw [run_existing_completed transfer hfind hc]
      exact le_max_right _ _
    · by_cases hf : tx.status = Status.failed
      · rw [run_existing_failed transfer hfind hf]
        exact le_max_right _ _
      · simp only [processDeposit, processDepositTry, hfind, if_neg hc, if_neg hf]
        cases transfer with
        | ok h => simp only [countSession_update]; exact le_max_right _ _
        | error e => simp only [countSession_update]; exact le_max_right _ _
  | none =>
    have h0 : countSession st.ledger sid = 0 := countSession_of_findSession_none hfind
    rcases hg : getWalletBalance now fetch st with ⟨r, f⟩
    cases r with
    | error e =>
      simp only [processDeposit, processDepositTry, hfind, hg, h0]
      omega
    | ok p =>
      rcases p with ⟨info, st1⟩
      by_cases hlt : info.availableForOnramp < amount
      · rw [run_insufficient transfer hfind hfresh hg hlt]
        simp only [countSession_append, h0, insufficientTx]
        simp
      · cases transfer with
        | ok h =>
          rw [run_transfer_ok hfind hfresh hg hlt]
          simp only [countSession_append, h0, completedTx]
          simp
        | error e =>
          rw [run_transfer_error hfind hfresh hg hlt]
          simp only [countSession_append, h0, failedTx]
          simp

/-- Witness for C6: a concrete fresh-session settlement leaves exactly one
intent for the session, within the at-most-one bound. -/
theorem ledger_at_most_one_witness :
    countSession (processDeposit "cs_4" "0xd" 30 0 "t1" (Except.ok 100) (Except.ok "h")
        { ledger := [], cache := { timestamp := 0, balance := 0 } }).2.1.ledger "cs_4"
      ≤ max 1 (countSession
        (St.ledger { ledger := [], cache := { timestamp := 0, balance := 0 } }) "cs_4") :=
  ledger_at_most_one_intent "cs_4" "0xd" 30 0 "t1" (Except.ok 100) (Except.ok "h")
    { ledger := [], cache := { timestamp := 0, balance := 0 } } (by decide)

/-- C2, counterexample: a settle call that proceeds past step 1 with an
existing Pending intent goes straight to the Transfer Client without ever
querying the available headroom: zero Balance Oracle queries and one
transfer call. -/
theorem headroom_check_cex :
    (processDeposit "sess_1" "0xabc" 30 1 "tx_2" (Except.ok 1000) (Except.ok "h")
        { ledger := [{ id := "tx_1", walletAddress := "0xabc", amount := 30,
                       status := Status.pending, createdAt := 0, updatedAt := 0,
                       stripeSessionId := "sess_1" }],
          cache := { timestamp := 0, balance := 0 } }).2.2.oracleQueries = 0 ∧
    (processDeposit "sess_1" "0xabc" 30 1 "tx_2" (Except.ok 1000) (Except.ok "h")
        { ledger := [{ id := "tx_1", walletAddress := "0xabc", amount := 30,
                       status := Status.pending, createdAt := 0, updatedAt := 0,
                       stripeSessionId := "sess_1" }],
          cache := { timestamp := 0, balance := 0 } }).2.2.transferCalls ≠ [] := by decide

/-- C2, amended: the headroom guarantee holds only on the no-existing-intent
path: when the session has no intent yet, the headroom is queried before
any transfer, and if it is insufficient for the requested amount the call
returns failure with the insufficient-balance reason, records a Failed
intent, and attempts no transfer.  (A call proceeding with an existing
Pending/Processing intent instead invokes the transfer with no headroom
query, as the counterexample shows.) -/
theorem headroom_check_amended (sid dest : String) (amount : Int) (now : Nat)
    (fid : String) (fetch : Except String Int) (transfer : Except String String)
    (st : St) (info : BalanceInfo) (st1 : St) (f : Nat)
    (hfind : getPendingTransactionBySessionId st.ledger sid = none)
    (hfresh : fid ∉ st.ledger.map Tx.id)
    (hbal : getWalletBalance now fetch st = (Except.ok (info, st1), f))
    (hlt : info.availableForOnramp < amount) :
    (processDeposit sid dest amount now fid fetch transfer st).1.success = false ∧
    (processDeposit sid dest amount now fid fetch transfer st).1.error
      = some (insufficientMsg amount info.availableForOnramp) ∧
    (processDeposit sid dest amount now fid fetch transfer st).2.2.transferCalls = [] ∧
    (processDeposit sid dest amount now fid fetch transfer st).2.2.oracleQueries = 1 ∧
    getPendingTransactionBySessionId
        (processDeposit sid dest amount now fid fetch transfer st).2.1.ledger sid
      = some (insufficientTx fid sid dest amount info.availableForOnramp now) ∧
    (insufficientTx fid sid dest amount info.availableForOnramp now).status
      = Status.failed := by
  rw [run_insufficient transfer hfind hfresh hbal hlt]
  refine ⟨rfl, rfl, rfl, rfl, ?_, rfl⟩
  rw [findSession_append _ hfind]
  simp [insufficientTx]

/-- Witness for C2 (amended): a concrete fresh session with balance 10 and
requested amount 30 fails with the insufficient-balance reason, records a
Failed intent and attempts no transfer. -/
theorem headroom_check_witness :
    (processDeposit "cs_5" "0xd" 30 0 "t1" (Except.ok 10) (Except.ok "h")
        { ledger := [], cache := { timestamp := 0, balance := 0 } }).1.success = false ∧
    (processDeposit "cs_5" "0xd" 30 0 "t1" (Except.ok 10) (Except.ok "h")
        { ledger := [], cache := { timestamp := 0, balance := 0 } }).1.error
      = some (insufficientMsg 30 10) ∧
    (processDeposit "cs_5" "0xd" 30 0 "t1" (Except.ok 10) (Except.ok "h")
        { ledger := [], cache := { timestamp := 0, balance := 0 } }).2.2.transferCalls = [] ∧
    (processDeposit "cs_5" "0xd" 30 0 "t1" (Except.ok 10) (Except.ok "h")
        { ledger := [], cache := { timestamp := 0, balance := 0 } }).2.2.oracleQueries = 1 ∧
    getPendingTransactionBySessionId
        (processDeposit "cs_5" "0xd" 30 0 "t1" (Except.ok 10) (Except.ok "h")
          { ledger := [], cache := { timestamp := 0, balance := 0 } }).2.1.ledger "cs_5"
      = some (insufficientTx "t1" "cs_5" "0xd" 30 10 0) ∧
    (insufficientTx "t1" "cs_5" "0xd" 30 10 0).status = Status.failed :=
  headroom_check_amended "cs_5" "0xd" 30 0 "t1" (Except.ok 10) (Except.ok "h")
    { ledger := [], cache := { timestamp := 0, balance := 0 } }
    { balance := 10, availableForOnramp := 10, pendingAmount := 0 }
    { ledger := [], cache := { timestamp := 0, balance := 10 } } 1
    rfl (by decide) rfl (by decide)

/-- C1, counterexample: when the first delivery fails the headroom check
(balance 10, amount 30), two settle calls for the same session produce
zero Transfer Client invocations in total, not exactly one. -/
theorem settle_idempotent_cex :
    (processDeposit "sess_1" "0xabc" 30 0 "tx_1" (Except.ok 10) (Except.ok "h")
        { ledger := [], cache := { timestamp := 0, balance := 0 } }).2.2.transferCalls.length
      + (processDeposit "sess_1" "0xabc" 30 1 "tx_2" (Except.ok 10) (Except.ok "h")
          (processDeposit "sess_1" "0xabc" 30 0 "tx_1" (Except.ok 10) (Except.ok "h")
            { ledger := [], cache := { timestamp := 0, balance := 0 } }).2.1).2.2.transferCalls.length
      = 0 := by decide

/-- C1, amended: provided the first call's balance fetch succeeds (a fetch
failure creates no record, so a redelivery would simply retry) and any
transfer failure carries a nonempty message, two settle calls with the
same arguments return identical outcomes and make at most one Transfer
Client invocation in total — exactly one when the headroom check passes
and zero when it fails. -/
theorem settle_idempotent_amended (sid dest : String) (amount : Int)
    (now1 now2 : Nat) (fid1 fid2 : String) (fetch1 fetch2 : Except String Int)
    (transfer1 transfer2 : Except String String) (st : St)
    (info : BalanceInfo) (st1 : St) (f : Nat)
    (hfind : getPendingTransactionBySessionId st.ledger sid = none)
    (hfresh : fid1 ∉ st.ledger.map Tx.id)
    (hbal : getWalletBalance now1 fetch1 st = (Except.ok (info, st1), f))
    (hne : transfer1 ≠ Except.error "") :
    (processDeposit sid dest amount now1 fid1 fetch1 transfer1 st).1
      = (processDeposit sid dest amount now2 fid2 fetch2 transfer2
          (processDeposit sid dest amount now1 fid1 fetch1 transfer1 st).2.1).1 ∧
    (processDeposit sid dest amount now1 fid1 fetch1 transfer1 st).2.2.transferCalls.length
      + (processDeposit sid dest amount now2 fid2 fetch2 transfer2
          (processDeposit sid dest amount now1 fid1 fetch1 transfer1 st).2.1).2.2.transferCalls.length
      = if info.availableForOnramp < amount then 0 else 1 := by
  by_cases hlt : info.availableForOnramp < amount
  · rw [run_insufficient transfer1 hfind hfresh hbal hlt]
    have hfind2 : getPendingTransactionBySessionId
        (st.ledger ++ [insufficientTx fid1 sid dest amount info.availableForOnramp now1]) sid
        = some (insufficientTx fid1 sid dest amount info.availableForOnramp now1) := by
      rw [findSession_append _ hfind]
      simp [insufficientTx]
    rw [run_existing_failed transfer2 hfind2 rfl]
    refine ⟨?_, by simp [hlt]⟩
    simp only [insufficientTx,
      jsOrString_of_ne (insufficientMsg_ne_empty amount info.availableForOnramp)]
  · cases transfer1 with
    | ok h =>
      rw [run_transfer_ok hfind hfresh hbal hlt]
      have hfind2 : getPendingTransactionBySessionId
          (st.ledger ++ [completedTx fid1 sid dest amount now1 h]) sid
          = some (completedTx fid1 sid dest amount now1 h) := by
        rw [findSession_append _ hfind]
        simp [completedTx]
      rw [run_existing_completed transfer2 hfind2 rfl]
      exact ⟨rfl, by simp [hlt]⟩
    | error e =>
      have he : e ≠ "" := fun hh => hne (by rw [hh])
      rw [run_transfer_error hfind hfresh hbal hlt]
      have hfind2 : getPendingTransactionBySessionId
          (st.ledger ++ [failedTx fid1 sid dest amount now1 e]) sid
          = some (failedTx fid1 sid dest amount now1 e) := by
        rw [findSession_append _ hfind]
        simp [failedTx]
      rw [run_existing_failed transfer2 hfind2 rfl]
      refine ⟨?_, by simp [hlt]⟩
      simp only [failedTx, jsOrString_of_ne he]

/-- Witness for C1 (amended): a concrete successful first settlement is
replayed with a different environment; both calls agree and exactly one
transfer happened in total. -/
theorem settle_idempotent_witness :
    (processDeposit "cs_6" "0xd" 30 0 "t1" (Except.ok 100) (Except.ok "h")
        { ledger := [], cache := { timestamp := 0, balance := 0 } }).1
      = (processDeposit "cs_6" "0xd" 30 5 "t2" (Except.error "down") (Except.error "no")
          (processDeposit "cs_6" "0xd" 30 0 "t1" (Except.ok 100) (Except.ok "h")
            { ledger := [], cache := { timestamp := 0, balance := 0 } }).2.1).1 ∧
    (processDeposit "cs_6" "0xd" 30 0 "t1" (Except.ok 100) (Except.ok "h")
        { ledger := [], cache := { timestamp := 0, balance := 0 } }).2.2.transferCalls.length
      + (processDeposit "cs_6" "0xd" 30 5 "t2" (Except.error "down") (Except.error "no")
          (processDeposit "cs_6" "0xd" 30 0 "t1" (Except.ok 100) (Except.ok "h")
            { ledger := [], cache := { timestamp := 0, balance := 0 } }).2.1).2.2.transferCalls.length
      = if ({ balance := 100, availableForOnramp := 100, pendingAmount := 0 }
            : BalanceInfo).availableForOnramp < (30 : Int) then 0 else 1 :=
  settle_idempotent_amended "cs_6" "0xd" 30 0 5 "t1" "t2" (Except.ok 100)
    (Except.error "down") (Except.ok "h") (Except.error "no")
    { ledger := [], cache := { timestamp := 0, balance := 0 } }
    { balance := 100, availableForOnramp := 100, pendingAmount := 0 }
    { ledger := [], cache := { timestamp := 0, balance := 100 } } 1
    rfl (by decide) rfl (fun hcon => Except.noConfusion hcon)

/-- C3, counterexample: two deliveries of the same completion event whose
first settlement attempt fails at the Transfer Client produce two refund
attempts in total, not exactly one — the handler refunds on every failed
delivery, including the redelivery that merely reads back the stored
Failed intent. -/
theorem refund_once_cex :
    (handleCheckoutCompleted
        { id := "sess_2", paymentStatus := "paid", walletAddress := some "0xabc",
          baseAmount := 30, paymentIntent := some "pi_1" }
        0 "t1" (Except.ok 100) (Except.error "UpstreamRejected")
        { ledger := [], cache := { timestamp := 0, balance := 0 } }).refundAttempts
      + (handleCheckoutCompleted
          { id := "sess_2", paymentStatus := "paid", walletAddress := some "0xabc",
            baseAmount := 30, paymentIntent := some "pi_1" }
          1 "t2" (Except.ok 100) (Except.error "down")
          (handleCheckoutCompleted
            { id := "sess_2", paymentStatus := "paid", walletAddress := some "0xabc",
              baseAmount := 30, paymentIntent := some "pi_1" }
            0 "t1" (Except.ok 100) (Except.error "UpstreamRejected")
            { ledger := [], cache := { timestamp := 0, balance := 0 } }).finalState).refundAttempts
      = 2 := by decide

/-- C3, amended: refunds are attempted per delivery, not once per intent:
each delivery of a paid completion event (with truthy wallet metadata and
amount, and a payment intent to refund against) whose settlement outcome
is a failure triggers exactly one Refund Client invocation — so an intent
that reached Failed through a transfer failure receives one refund attempt
on that delivery and one more on every redelivery. -/
theorem refund_per_delivery (sess : WebhookSession) (now : Nat) (fid : String)
    (fetch : Except String Int) (transfer : Except String String) (st : St)
    (hpaid : sess.paymentStatus = "paid")
    (hw : jsTruthyStr sess.walletAddress = true)
    (hamt : sess.baseAmount ≠ 0)
    (hpi : sess.paymentIntent.isSome = true)
    (hfail : (processDeposit sess.id (sess.walletAddress.getD "") sess.baseAmount
        now fid fetch transfer st).1.success = false) :
    (handleCheckoutCompleted sess now fid fetch transfer st).refundAttempts = 1 := by
  obtain ⟨pi, hpi2⟩ := Option.isSome_iff_exists.mp hpi
  unfold handleCheckoutCompleted
  rw [if_pos hpaid, if_pos ⟨hw, hamt⟩]
  simp only [hfail, hpi2]
  rfl

/-- Witness for C3 (amended): a concrete failed-transfer delivery triggers
exactly one refund attempt. -/
theorem refund_per_delivery_witness :
    (handleCheckoutCompleted
        { id := "sess_4", paymentStatus := "paid", walletAddress := some "0xabc",
          baseAmount := 30, paymentIntent := some "pi_1" }
        0 "t1" (Except.ok 100) (Except.error "UpstreamRejected")
        { ledger := [], cache := { timestamp := 0, balance := 0 } }).refundAttempts = 1 :=
  refund_per_delivery
    { id := "sess_4", paymentStatus := "paid", walletAddress := some "0xabc",
      baseAmount := 30, paymentIntent := some "pi_1" }
    0 "t1" (Except.ok 100) (Except.error "UpstreamRejected")
    { ledger := [], cache := { timestamp := 0, balance := 0 } }
    rfl (by decide) (by decide) rfl (by decide)

/-- C4, counterexample: a settle attempt that fails on insufficient
headroom (balance 10, amount 30 — no transfer attempted) nevertheless
triggers a refund: the webhook handler refunds on any failure outcome
without distinguishing the insufficient-balance path. -/
theorem no_refund_on_insufficient_cex :
    (handleCheckoutCompleted
        { id := "sess_3", paymentStatus := "paid", walletAddress := some "0xabc",
          baseAmount := 30, paymentIntent := some "pi_2" }
        0 "t1" (Except.ok 10) (Except.ok "h")
        { ledger := [], cache := { timestamp := 0, balance := 0 } }).refundAttempts = 1 ∧
    (handleCheckoutCompleted
        { id := "sess_3", paymentStatus := "paid", walletAddress := some "0xabc",
          baseAmount := 30, paymentIntent := some "pi_2" }
        0 "t1" (Except.ok 10) (Except.ok "h")
        { ledger := [], cache := { timestamp := 0, balance := 0 } }).calls.transferCalls
      = [] := by decide

/-- C4, amended: when a settle attempt inside the webhook fails the headroom
check, no transfer is attempted, but the Refund Client is invoked — the
handler issues exactly one refund attempt for that delivery (failure
causes are not distinguished; the charged customer is refunded even though
no transfer was ever attempted). -/
theorem refund_on_insufficient (sess : WebhookSession) (now : Nat) (fid : String)
    (fetch : Except String Int) (transfer : Except String String) (st : St)
    (info : BalanceInfo) (st1 : St) (f : Nat)
    (hpaid : sess.paymentStatus = "paid")
    (hw : jsTruthyStr sess.walletAddress = true)
    (hamt : sess.baseAmount ≠ 0)
    (hpi : sess.paymentIntent.isSome = true)
    (hfind : getPendingTransactionBySessionId st.ledger sess.id = none)
    (hfresh : fid ∉ st.ledger.map Tx.id)
    (hbal : getWalletBalance now fetch st = (Except.ok (info, st1), f))
    (hlt : info.availableForOnramp < sess.baseAmount) :
    (handleCheckoutCompleted sess now fid fetch transfer st).refundAttempts = 1 ∧
    (handleCheckoutCompleted sess now fid fetch transfer st).calls.transferCalls = [] := by
  obtain ⟨pi, hpi2⟩ := Option.isSome_iff_exists.mp hpi
  have hrun := @run_insufficient sess.id (sess.walletAddress.getD "") sess.baseAmount
    now fid fetch transfer st info st1 f hfind hfresh hbal hlt
  unfold handleCheckoutCompleted
  rw [if_pos hpaid, if_pos ⟨hw, hamt⟩]
  simp only [hrun, hpi2]
  exact ⟨rfl, rfl⟩

/-- Witness for C4 (amended): concrete insufficient-headroom delivery —
one refund attempt, zero transfers. -/
theorem refund_on_insufficient_witness :
    (handleCheckoutCompleted
        { id := "sess_5", paymentStatus := "paid", walletAddress := some "0xabc",
          baseAmount := 30, paymentIntent := some "pi_3" }
        0 "t1" (Except.ok 10) (Except.ok "h")
        { ledger := [], cache := { timestamp := 0, balance := 0 } }).refundAttempts = 1 ∧
    (handleCheckoutCompleted
        { id := "sess_5", paymentStatus := "paid", walletAddress := some "0xabc",
          baseAmount := 30, paymentIntent := some "pi_3" }
        0 "t1" (Except.ok 10) (Except.ok "h")
        { ledger := [], cache := { timestamp := 0, balance := 0 } }).calls.transferCalls = [] :=
  refund_on_insufficient
    { id := "sess_5", paymentStatus := "paid", walletAddress := some "0xabc",
      baseAmount := 30, paymentIntent := some "pi_3" }
    0 "t1" (Except.ok 10) (Except.ok "h")
    { ledger := [], cache := { timestamp := 0, balance := 0 } }
    { balance := 10, availableForOnramp := 10, pendingAmount := 0 }
    { ledger := [], cache := { timestamp := 0, balance := 10 } } 1
    rfl (by decide) (by decide) rfl rfl (by decide) rfl (by decide)

end Hyperramp
